import Mathlib

/-!
Shallow embedding of the snake-game simulation core of `src/main.rs`
(grid arithmetic, direction buffering, snake movement/growth/collision,
and the game-state tick driver), together with theorems settling the
behavioural claims about it.

Conventions of the embedding:
- `i16` grid coordinates become `Int` (all values reached by the game are
  tiny, far from the `i16` limits, so two's-complement wrap never fires);
  Rust's `rem_euclid` becomes `Int.emod`, which likewise returns a
  non-negative remainder for a positive modulus.
- The body `VecDeque<Segment>` becomes a `List Segment` with the front of
  the deque at the head of the list: `push_front` is `List.cons`,
  `pop_back` is `List.dropLast`.
- The `oorandom::Rand32` generator is an external crate, not part of this
  repository; it is modelled abstractly by a state type `ρ` together with
  a draw function `ρ → GridPosition × ρ` standing for
  `GridPosition::random`, which the theorems quantify over.
-/

/-- Constant `GRID_SIZE` from the source: 30 columns by 20 rows. -/
def GRID_SIZE : Int × Int := (30, 20)

/-- Structure `GridPosition`: a signed coordinate pair. -/
structure GridPosition where
  x : Int
  y : Int
deriving DecidableEq

/-- Constructor `GridPosition::new`. -/
def GridPosition.new (x y : Int) : GridPosition := ⟨x, y⟩

/-- Enum `Direction`: the four movement directions. -/
inductive Direction where
  | Up
  | Down
  | Left
  | Right
deriving DecidableEq

/-- Function `GridPosition::new_from_move`: move one cell in `dir`, each axis wrapped
with `rem_euclid` by the corresponding grid dimension (`%` on `Int` is
`Int.emod`, the Euclidean remainder, non-negative for a positive modulus).
-/
def GridPosition.new_from_move (pos : GridPosition) (dir : Direction) : GridPosition :=
  match dir with
  | Direction.Up => GridPosition.new pos.x ((pos.y - 1) % GRID_SIZE.2)
  | Direction.Down => GridPosition.new pos.x ((pos.y + 1) % GRID_SIZE.2)
  | Direction.Left => GridPosition.new ((pos.x - 1) % GRID_SIZE.1) pos.y
  | Direction.Right => GridPosition.new ((pos.x + 1) % GRID_SIZE.1) pos.y

/-- Function `Direction::inverse`. -/
def Direction.inverse (d : Direction) : Direction :=
  match d with
  | Direction.Up => Direction.Down
  | Direction.Down => Direction.Up
  | Direction.Left => Direction.Right
  | Direction.Right => Direction.Left

/-- Keyboard key codes, as far as the game observes them: the four arrow
keys, and everything else collapsed into `other` (with an arbitrary tag so
that distinct unrecognised keys stay distinct). -/
inductive KeyCode where
  | Up
  | Down
  | Left
  | Right
  | other (code : Nat)
deriving DecidableEq

/-- Function `Direction::from_keycode`: the four arrow keys map to directions, every
other key to `none`. -/
def Direction.from_keycode (key : KeyCode) : Option Direction :=
  match key with
  | KeyCode.Up => some Direction.Up
  | KeyCode.Down => some Direction.Down
  | KeyCode.Left => some Direction.Left
  | KeyCode.Right => some Direction.Right
  | KeyCode.other _ => none

/-- Structure `Segment`: a body cell, wrapping a position. -/
structure Segment where
  pos : GridPosition
deriving DecidableEq

/-- Constructor `Segment::new`. -/
def Segment.new (pos : GridPosition) : Segment := ⟨pos⟩

/-- Structure `Food`: a position holder. -/
structure Food where
  pos : GridPosition
deriving DecidableEq

/-- Constructor `Food::new`. -/
def Food.new (pos : GridPosition) : Food := ⟨pos⟩

/-- Enum `Ate`: what the snake's head landed on during a tick. -/
inductive Ate where
  | Itself
  | Food
deriving DecidableEq

/-- Structure `Snake`: head segment, committed direction, body deque (front first),
outcome of the last tick, direction applied on the last tick, and the
buffered next direction. -/
structure Snake where
  head : Segment
  dir : Direction
  body : List Segment
  ate : Option Ate
  last_update_dir : Direction
  next_dir : Option Direction
deriving DecidableEq

/-- Constructor `Snake::new`: head at `pos`, one body segment at `(pos.x - 1, pos.y)`
(no wraparound is applied here in the source), facing Right. -/
def Snake.new (pos : GridPosition) : Snake :=
  { head := Segment.new pos
    dir := Direction.Right
    body := [Segment.new (GridPosition.new (pos.x - 1) pos.y)]
    ate := none
    last_update_dir := Direction.Right
    next_dir := none }

/-- Predicate `Snake::eats_food`: the head sits on the food. -/
def Snake.eats_food (s : Snake) (food : Food) : Bool :=
  decide (s.head.pos = food.pos)

/-- Predicate `Snake::eats_self`: the head sits on some body segment. -/
def Snake.eats_self (s : Snake) : Bool :=
  s.body.any (fun seg => decide (s.head.pos = seg.pos))

/-- The first step of `Snake::update`: if the committed direction has been
consumed by a tick (`last_update_dir == dir`) and a direction is buffered,
promote the buffered direction and clear the buffer. -/
def Snake.promote (s : Snake) : Snake :=
  if s.last_update_dir = s.dir then
    match s.next_dir with
    | some d => { s with dir := d, next_dir := none }
    | none => s
  else s

/-- The movement step of `Snake::update`: compute the new head one move in
the current direction, push the old head onto the front of the body. -/
def Snake.advance (s : Snake) : Snake :=
  { s with
    body := s.head :: s.body
    head := Segment.new (GridPosition.new_from_move s.head.pos s.dir) }

/-- Function `Snake::update`: promote a buffered direction if due, advance the head,
classify the outcome (self-collision first, then food, else nothing), pop
the tail exactly when nothing was eaten, and commit the direction used. -/
def Snake.update (s : Snake) (food : Food) : Snake :=
  let s1 := s.promote
  let s2 := s1.advance
  let ate : Option Ate :=
    if s2.eats_self then some Ate.Itself
    else if s2.eats_food food then some Ate.Food
    else none
  let s3 := { s2 with ate := ate }
  let s4 := if ate.isNone then { s3 with body := s3.body.dropLast } else s3
  { s4 with last_update_dir := s4.dir }

/-- The direction-input logic of `GameState::key_down_event`, acting on the
snake: if a direction change is already in flight (`dir ≠ last_update_dir`)
and the request does not reverse the current direction, buffer it;
otherwise, if the request does not reverse the last committed direction,
apply it immediately; otherwise ignore it. -/
def Snake.handle_direction_input (s : Snake) (d : Direction) : Snake :=
  if s.dir ≠ s.last_update_dir ∧ d.inverse ≠ s.dir then
    { s with next_dir := some d }
  else if d.inverse ≠ s.last_update_dir then
    { s with dir := d }
  else s

/-- The cells occupied by the snake, head first: `[head] + body`. -/
def Snake.positions (s : Snake) : List GridPosition :=
  s.head.pos :: s.body.map Segment.pos

/-- Structure `GameState`: snake, food, game-over flag, and the state of the random
generator (abstract, see the module comment). -/
structure GameState (ρ : Type) where
  snake : Snake
  food : Food
  gameover : Bool
  rng : ρ

/-- The configured start cell of `GameState::new`:
`(GRID_SIZE.0 / 4, GRID_SIZE.1 / 2)`. -/
def snake_start : GridPosition :=
  GridPosition.new (GRID_SIZE.1 / 4) (GRID_SIZE.2 / 2)

/-- One owed tick of `GameState::update` (one iteration of its catch-up
loop): if the game is over do nothing; otherwise run `Snake::update`, then
on `AteFood` draw a fresh food position from the generator, and on
`AteSelf` set the game-over flag. `randCell` stands for
`GridPosition::random` applied to the stored generator. -/
def GameState.tick {ρ : Type} (randCell : ρ → GridPosition × ρ) (g : GameState ρ) :
    GameState ρ :=
  if g.gameover then g
  else
    let snake := g.snake.update g.food
    match snake.ate with
    | some Ate.Food =>
      let r := randCell g.rng
      { g with snake := snake, food := Food.new r.1, rng := r.2 }
    | some Ate.Itself => { g with snake := snake, gameover := true }
    | none => { g with snake := snake }

/-- Function `GameState::key_down_event`: decode the (optional) key code and forward
a decoded direction to the snake's direction-input logic. -/
def GameState.key_down_event {ρ : Type} (g : GameState ρ) (input : Option KeyCode) :
    GameState ρ :=
  match input.bind Direction.from_keycode with
  | some d => { g with snake := g.snake.handle_direction_input d }
  | none => g

/-- One interaction with the snake between renders: either a decoded
direction key press, or one simulation tick with the food at the given
position. -/
inductive Step where
  | input (d : Direction)
  | tick (food : GridPosition)

/-- Run a sequence of interactions against a snake. -/
def Snake.run (s : Snake) : List Step → Snake
  | [] => s
  | Step.input d :: rest => Snake.run (s.handle_direction_input d) rest
  | Step.tick f :: rest => Snake.run (s.update (Food.new f)) rest

/-- A trace the tick driver can actually produce: no tick is issued once
the previous tick reported `AteSelf` (the driver freezes the game then). -/
def validTrace (s : Snake) : List Step → Bool
  | [] => true
  | Step.input d :: rest => validTrace (s.handle_direction_input d) rest
  | Step.tick f :: rest =>
    decide (s.ate ≠ some Ate.Itself) && validTrace (s.update (Food.new f)) rest

/-! ### Structural lemmas about one snake tick -/

theorem Snake.eats_self_iff (s : Snake) :
    s.eats_self = true ↔ s.head.pos ∈ s.body.map Segment.pos := by
  simp only [Snake.eats_self, List.any_eq_true, decide_eq_true_eq, List.mem_map]
  constructor
  · rintro ⟨seg, hm, he⟩
    exact ⟨seg, hm, he.symm⟩
  · rintro ⟨seg, hm, he⟩
    exact ⟨seg, hm, he.symm⟩

theorem Snake.promote_advance (s : Snake) :
    s.promote.advance =
      { head := Segment.new (GridPosition.new_from_move s.head.pos s.promote.dir)
        dir := s.promote.dir
        body := s.head :: s.body
        ate := s.ate
        last_update_dir := s.last_update_dir
        next_dir := s.promote.next_dir } := by
  obtain ⟨h, d, b, a, l, n⟩ := s
  cases n <;> by_cases hld : l = d <;> simp [Snake.promote, Snake.advance, hld]

/-- The self-collision branch of `Snake::update`. -/
theorem Snake.update_self (s : Snake) (f : Food)
    (h : GridPosition.new_from_move s.head.pos s.promote.dir ∈
      (s.head :: s.body).map Segment.pos) :
    s.update f =
      { head := Segment.new (GridPosition.new_from_move s.head.pos s.promote.dir)
        dir := s.promote.dir
        body := s.head :: s.body
        ate := some Ate.Itself
        last_update_dir := s.promote.dir
        next_dir := s.promote.next_dir } := by
  have h2 : s.promote.advance.eats_self = true := by
    rw [Snake.promote_advance, Snake.eats_self_iff]
    simpa [Segment.new] using h
  simp only [Snake.update, h2]
  rw [Snake.promote_advance]
  simp

/-- The food branch of `Snake::update`. -/
theorem Snake.update_food (s : Snake) (f : Food)
    (hns : GridPosition.new_from_move s.head.pos s.promote.dir ∉
      (s.head :: s.body).map Segment.pos)
    (hf : GridPosition.new_from_move s.head.pos s.promote.dir = f.pos) :
    s.update f =
      { head := Segment.new (GridPosition.new_from_move s.head.pos s.promote.dir)
        dir := s.promote.dir
        body := s.head :: s.body
        ate := some Ate.Food
        last_update_dir := s.promote.dir
        next_dir := s.promote.next_dir } := by
  have h2 : s.promote.advance.eats_self = false := by
    rw [Bool.eq_false_iff]
    intro hc
    rw [Snake.promote_advance, Snake.eats_self_iff] at hc
    exact hns (by simpa [Segment.new] using hc)
  have h3 : s.promote.advance.eats_food f = true := by
    rw [Snake.promote_advance]
    simp [Snake.eats_food, Segment.new, hf]
  simp only [Snake.update, h2, h3]
  rw [Snake.promote_advance]
  simp

/-- The plain-move branch of `Snake::update`. -/
theorem Snake.update_none (s : Snake) (f : Food)
    (hns : GridPosition.new_from_move s.head.pos s.promote.dir ∉
      (s.head :: s.body).map Segment.pos)
    (hnf : GridPosition.new_from_move s.head.pos s.promote.dir ≠ f.pos) :
    s.update f =
      { head := Segment.new (GridPosition.new_from_move s.head.pos s.promote.dir)
        dir := s.promote.dir
        body := (s.head :: s.body).dropLast
        ate := none
        last_update_dir := s.promote.dir
        next_dir := s.promote.next_dir } := by
  have h2 : s.promote.advance.eats_self = false := by
    rw [Bool.eq_false_iff]
    intro hc
    rw [Snake.promote_advance, Snake.eats_self_iff] at hc
    exact hns (by simpa [Segment.new] using hc)
  have h3 : s.promote.advance.eats_food f = false := by
    rw [Snake.promote_advance]
    simp [Snake.eats_food, Segment.new, hnf]
  simp only [Snake.update, h2, h3]
  rw [Snake.promote_advance]
  simp

theorem Snake.handle_frame (s : Snake) (d : Direction) :
    (s.handle_direction_input d).head = s.head ∧
    (s.handle_direction_input d).body = s.body ∧
    (s.handle_direction_input d).ate = s.ate ∧
    (s.handle_direction_input d).last_update_dir = s.last_update_dir := by
  unfold Snake.handle_direction_input
  split_ifs <;> simp

/-- One tick from a duplicate-free snake either reports a self-collision or
leaves the occupied cells duplicate-free. -/
theorem Snake.update_nodup (s : Snake) (f : Food) (h : s.positions.Nodup) :
    (s.update f).ate = some Ate.Itself ∨ (s.update f).positions.Nodup := by
  have hmap : (s.head :: s.body).map Segment.pos = s.positions := rfl
  by_cases hself : GridPosition.new_from_move s.head.pos s.promote.dir ∈
      (s.head :: s.body).map Segment.pos
  · left
    rw [Snake.update_self s f hself]
  · right
    rw [hmap] at hself
    by_cases hfood : GridPosition.new_from_move s.head.pos s.promote.dir = f.pos
    · rw [Snake.update_food s f (by rw [hmap]; exact hself) hfood]
      simp only [Snake.positions, Segment.new, List.nodup_cons]
      exact ⟨by simpa [hmap] using hself, by simpa [hmap] using h⟩
    · rw [Snake.update_none s f (by rw [hmap]; exact hself) hfood]
      simp only [Snake.positions, Segment.new, List.map_dropLast, hmap, List.nodup_cons]
      constructor
      · intro hc
        exact hself ((List.dropLast_sublist s.positions).subset hc)
      · exact List.Nodup.sublist (List.dropLast_sublist s.positions) h

/-- The occupied-cells invariant is preserved along every driver-valid
interaction sequence. -/
theorem run_invariant : ∀ (l : List Step) (s : Snake), validTrace s l = true →
    (s.ate = some Ate.Itself ∨ s.positions.Nodup) →
    ((Snake.run s l).ate = some Ate.Itself ∨ (Snake.run s l).positions.Nodup) := by
  intro l
  induction l with
  | nil =>
    intro s _ hi
    exact hi
  | cons st rest ih =>
    intro s hv hi
    cases st with
    | input d =>
      simp only [Snake.run]
      have hv' : validTrace (s.handle_direction_input d) rest = true := by
        simpa [validTrace] using hv
      have hfr := Snake.handle_frame s d
      refine ih _ hv' ?_
      rcases hi with hi | hi
      · left
        rw [hfr.2.2.1, hi]
      · right
        simpa only [Snake.positions, hfr.1, hfr.2.1] using hi
    | tick f =>
      simp only [Snake.run]
      have hv' := hv
      simp only [validTrace, Bool.and_eq_true, decide_eq_true_eq] at hv'
      have hnodup : s.positions.Nodup := by
        rcases hi with hi | hi
        · exact absurd hi hv'.1
        · exact hi
      exact ih _ hv'.2 (Snake.update_nodup s (Food.new f) hnodup)

/-! ### Claim theorems -/

/-- C1: starting from `Snake::new` at the configured start cell, under any
sequence of direction inputs and ticks in which the driver issues no tick
after one reported `AteSelf`, the cell sequence `[head] + body` contains no
duplicate positions, except when the outcome of the last tick was
`AteSelf`. -/
theorem snake_positions_nodup (steps : List Step)
    (h : validTrace (Snake.new snake_start) steps = true) :
    (Snake.run (Snake.new snake_start) steps).ate = some Ate.Itself ∨
      ((Snake.run (Snake.new snake_start) steps).positions).Nodup :=
  run_invariant steps (Snake.new snake_start) h (Or.inr (by decide))

/-- Witness for C1 at a concrete three-step trace (tick, turn up, tick). -/
theorem snake_positions_nodup_witness :
    validTrace (Snake.new snake_start)
      [Step.tick (GridPosition.new 0 0), Step.input Direction.Up,
        Step.tick (GridPosition.new 3 3)] = true ∧
    ((Snake.run (Snake.new snake_start)
        [Step.tick (GridPosition.new 0 0), Step.input Direction.Up,
          Step.tick (GridPosition.new 3 3)]).ate = some Ate.Itself ∨
      ((Snake.run (Snake.new snake_start)
        [Step.tick (GridPosition.new 0 0), Step.input Direction.Up,
          Step.tick (GridPosition.new 3 3)]).positions).Nodup) :=
  ⟨by decide,
    snake_positions_nodup
      [Step.tick (GridPosition.new 0 0), Step.input Direction.Up,
        Step.tick (GridPosition.new 3 3)] (by decide)⟩

/-- C3: one tick pops the tail exactly when the outcome is `None`, so the
total length of `[head] + body` is unchanged on `None` and grows by one on
`AteFood` or `AteSelf`. -/
theorem update_length_rule (s : Snake) (f : Food) :
    (s.update f).body =
      (if (s.update f).ate = none then (s.head :: s.body).dropLast
        else s.head :: s.body) ∧
    (s.update f).positions.length =
      (if (s.update f).ate = none then s.positions.length
        else s.positions.length + 1) := by
  by_cases hself : GridPosition.new_from_move s.head.pos s.promote.dir ∈
      (s.head :: s.body).map Segment.pos
  · rw [Snake.update_self s f hself]
    simp [Snake.positions]
  · by_cases hfood : GridPosition.new_from_move s.head.pos s.promote.dir = f.pos
    · rw [Snake.update_food s f hself hfood]
      simp [Snake.positions]
    · rw [Snake.update_none s f hself hfood]
      simp [Snake.positions, List.length_dropLast]

/-- C6: one move in direction `d` followed by one move in `inverse d`
returns to the starting cell, for every in-bounds cell. -/
theorem new_from_move_inverse (p : GridPosition) (d : Direction)
    (hx1 : 0 ≤ p.x) (hx2 : p.x < GRID_SIZE.1)
    (hy1 : 0 ≤ p.y) (hy2 : p.y < GRID_SIZE.2) :
    GridPosition.new_from_move (GridPosition.new_from_move p d) d.inverse = p := by
  obtain ⟨x, y⟩ := p
  cases d <;>
    simp only [GridPosition.new_from_move, Direction.inverse, GridPosition.new,
      GRID_SIZE, GridPosition.mk.injEq, true_and, and_true]
      at hx1 hx2 hy1 hy2 ⊢ <;>
    omega

/-- Witness for C6 at the cell (0, 0) moving Left (the wrapping case). -/
theorem new_from_move_inverse_witness :
    (0 ≤ (GridPosition.new 0 0).x ∧ (GridPosition.new 0 0).x < GRID_SIZE.1 ∧
      0 ≤ (GridPosition.new 0 0).y ∧ (GridPosition.new 0 0).y < GRID_SIZE.2) ∧
    GridPosition.new_from_move
      (GridPosition.new_from_move (GridPosition.new 0 0) Direction.Left)
      Direction.Left.inverse = GridPosition.new 0 0 :=
  ⟨by decide,
    new_from_move_inverse (GridPosition.new 0 0) Direction.Left
      (by decide) (by decide) (by decide) (by decide)⟩

/-- C7: a move from an in-bounds cell lands in bounds on both axes. -/
theorem new_from_move_in_bounds (p : GridPosition) (d : Direction)
    (hx1 : 0 ≤ p.x) (hx2 : p.x < GRID_SIZE.1)
    (hy1 : 0 ≤ p.y) (hy2 : p.y < GRID_SIZE.2) :
    0 ≤ (GridPosition.new_from_move p d).x ∧
    (GridPosition.new_from_move p d).x < GRID_SIZE.1 ∧
    0 ≤ (GridPosition.new_from_move p d).y ∧
    (GridPosition.new_from_move p d).y < GRID_SIZE.2 := by
  obtain ⟨x, y⟩ := p
  cases d <;>
    simp only [GridPosition.new_from_move, GridPosition.new, GRID_SIZE]
      at hx1 hx2 hy1 hy2 ⊢ <;>
    omega

/-- Witness for C7 at the cell (29, 0) moving Right (the wrapping case). -/
theorem new_from_move_in_bounds_witness :
    (0 ≤ (GridPosition.new 29 0).x ∧ (GridPosition.new 29 0).x < GRID_SIZE.1 ∧
      0 ≤ (GridPosition.new 29 0).y ∧ (GridPosition.new 29 0).y < GRID_SIZE.2) ∧
    (0 ≤ (GridPosition.new_from_move (GridPosition.new 29 0) Direction.Right).x ∧
      (GridPosition.new_from_move (GridPosition.new 29 0) Direction.Right).x < GRID_SIZE.1 ∧
      0 ≤ (GridPosition.new_from_move (GridPosition.new 29 0) Direction.Right).y ∧
      (GridPosition.new_from_move (GridPosition.new 29 0) Direction.Right).y < GRID_SIZE.2) :=
  ⟨by decide,
    new_from_move_in_bounds (GridPosition.new 29 0) Direction.Right
      (by decide) (by decide) (by decide) (by decide)⟩

/-- In every branch of a tick, the new head, the committed direction, the
carried-over buffer and the recorded last direction come from the promoted
state alone. -/
theorem Snake.update_head_dir (s : Snake) (f : Food) :
    (s.update f).head = Segment.new (GridPosition.new_from_move s.head.pos s.promote.dir) ∧
    (s.update f).dir = s.promote.dir ∧
    (s.update f).next_dir = s.promote.next_dir ∧
    (s.update f).last_update_dir = s.promote.dir := by
  by_cases hself : GridPosition.new_from_move s.head.pos s.promote.dir ∈
      (s.head :: s.body).map Segment.pos
  · rw [Snake.update_self s f hself]
    exact ⟨rfl, rfl, rfl, rfl⟩
  · by_cases hfood : GridPosition.new_from_move s.head.pos s.promote.dir = f.pos
    · rw [Snake.update_food s f hself hfood]
      exact ⟨rfl, rfl, rfl, rfl⟩
    · rw [Snake.update_none s f hself hfood]
      exact ⟨rfl, rfl, rfl, rfl⟩

/-- When the committed direction has been consumed and a direction is
buffered, promotion installs the buffered direction and clears the buffer. -/
theorem Snake.promote_buffered (s : Snake) (d : Direction)
    (h1 : s.last_update_dir = s.dir) (h2 : s.next_dir = some d) :
    s.promote = { s with dir := d, next_dir := none } := by
  unfold Snake.promote
  rw [h2, if_pos h1]

/-- The start snake after pressing Up and then Left within one tick window. -/
def bufferedSnake : Snake :=
  ((Snake.new snake_start).handle_direction_input Direction.Up).handle_direction_input
    Direction.Left

/-- C2 (counterexample): with the food at (0, 0), after inputs Up then Left
and ONE tick, the snake's direction is still Up and the buffered Left is
still pending — the claim that after one tick the direction has already
promoted to Left and the buffer has cleared fails. -/
theorem input_buffering_counterexample :
    (bufferedSnake.update (Food.new (GridPosition.new 0 0))).dir = Direction.Up ∧
    (bufferedSnake.update (Food.new (GridPosition.new 0 0))).next_dir =
      some Direction.Left ∧
    (bufferedSnake.update (Food.new (GridPosition.new 0 0))).dir ≠ Direction.Left ∧
    (bufferedSnake.update (Food.new (GridPosition.new 0 0))).next_dir ≠ none := by
  decide

/-- C2 (amended): from the start snake, inputs Up then Left give direction
Up with Left buffered immediately; the first tick moves the head Up and
leaves direction Up and the buffer holding Left; the buffered Left is
promoted at the start of the second tick (direction Left, buffer cleared),
and that second tick's head movement uses Left. -/
theorem input_buffering_two_ticks (f1 f2 : Food) :
    bufferedSnake.dir = Direction.Up ∧
    bufferedSnake.next_dir = some Direction.Left ∧
    (bufferedSnake.update f1).head.pos =
      GridPosition.new_from_move bufferedSnake.head.pos Direction.Up ∧
    (bufferedSnake.update f1).dir = Direction.Up ∧
    (bufferedSnake.update f1).next_dir = some Direction.Left ∧
    ((bufferedSnake.update f1).update f2).dir = Direction.Left ∧
    ((bufferedSnake.update f1).update f2).next_dir = none ∧
    ((bufferedSnake.update f1).update f2).head.pos =
      GridPosition.new_from_move (bufferedSnake.update f1).head.pos Direction.Left := by
  have hp : bufferedSnake.promote = bufferedSnake := by decide
  have hbd : bufferedSnake.dir = Direction.Up := by decide
  have hbn : bufferedSnake.next_dir = some Direction.Left := by decide
  have h1 := Snake.update_head_dir bufferedSnake f1
  rw [hp] at h1
  have hX1 : (bufferedSnake.update f1).last_update_dir = (bufferedSnake.update f1).dir := by
    rw [h1.2.2.2, h1.2.1]
  have hX2 : (bufferedSnake.update f1).next_dir = some Direction.Left := by
    rw [h1.2.2.1, hbn]
  have hpx := Snake.promote_buffered (bufferedSnake.update f1) Direction.Left hX1 hX2
  have h2 := Snake.update_head_dir (bufferedSnake.update f1) f2
  rw [hpx] at h2
  refine ⟨hbd, hbn, ?_, ?_, ?_, ?_, ?_, ?_⟩
  · rw [h1.1, hbd]
    rfl
  · rw [h1.2.1, hbd]
  · rw [h1.2.2.1, hbn]
  · rw [h2.2.1]
  · rw [h2.2.2.1]
  · rw [h2.1]
    rfl

/-- C4 (counterexample): in a snake state with last committed direction
Right but current direction already changed to Up this cycle (reachable by
one Up input from the start snake), handle_direction_input(Left) changes
pending_direction from none to some Left — so the claim that it never has
any effect when last committed is Right fails. -/
theorem reversal_rejection_counterexample :
    ((Snake.new snake_start).handle_direction_input Direction.Up).last_update_dir =
      Direction.Right ∧
    ((Snake.new snake_start).handle_direction_input Direction.Up).next_dir = none ∧
    (((Snake.new snake_start).handle_direction_input Direction.Up).handle_direction_input
      Direction.Left).next_dir = some Direction.Left := by
  decide

/-- C4 (amended): when the last committed direction is Right AND the
current direction is still Right (no change pending this cycle), input
Left leaves the snake completely unchanged. -/
theorem reversal_rejected_when_committed (s : Snake)
    (h1 : s.last_update_dir = Direction.Right) (h2 : s.dir = Direction.Right) :
    s.handle_direction_input Direction.Left = s := by
  unfold Snake.handle_direction_input
  rw [h1, h2]
  simp [Direction.inverse]

/-- Witness for the amended C4 at the start snake. -/
theorem reversal_rejected_when_committed_witness :
    (Snake.new snake_start).last_update_dir = Direction.Right ∧
    (Snake.new snake_start).dir = Direction.Right ∧
    (Snake.new snake_start).handle_direction_input Direction.Left =
      Snake.new snake_start :=
  ⟨rfl, rfl, reversal_rejected_when_committed (Snake.new snake_start) rfl rfl⟩

/-- C5: once the game-over flag is set, a tick leaves the entire game state
(snake with all of its fields, food, flag, and generator) unchanged, for
every random generator implementation. -/
theorem tick_noop_after_gameover {ρ : Type} (randCell : ρ → GridPosition × ρ)
    (g : GameState ρ) (h : g.gameover = true) :
    GameState.tick randCell g = g := by
  unfold GameState.tick
  rw [h]
  simp

/-- Witness for C5 at a concrete finished game state. -/
theorem tick_noop_after_gameover_witness :
    (GameState.mk (Snake.new snake_start) (Food.new (GridPosition.new 0 0)) true
      (0 : Nat)).gameover = true ∧
    GameState.tick (fun n : Nat => (GridPosition.new 0 0, n + 1))
        (GameState.mk (Snake.new snake_start) (Food.new (GridPosition.new 0 0)) true 0) =
      GameState.mk (Snake.new snake_start) (Food.new (GridPosition.new 0 0)) true 0 :=
  ⟨rfl,
    tick_noop_after_gameover (fun n : Nat => (GridPosition.new 0 0, n + 1))
      (GameState.mk (Snake.new snake_start) (Food.new (GridPosition.new 0 0)) true 0) rfl⟩

/-- C8 (counterexample): at start cell (0, 0) the single body segment of
`Snake::new` sits at x = -1, not at (0 - 1) mod 30 = 29 — the constructor
applies no modular wrap to the body cell. -/
theorem snake_new_counterexample :
    (Snake.new (GridPosition.new 0 0)).body = [Segment.new (GridPosition.new (-1) 0)] ∧
    ((0 : Int) - 1) % GRID_SIZE.1 = 29 ∧
    GridPosition.new (-1) 0 ≠ GridPosition.new 29 0 := by
  decide

/-- C8 (amended): `Snake::new start` has total length 2, head at the start
cell, one body segment at `(start.x - 1, start.y)` with no modular wrap
(this coincides with the claimed `((start.x - 1) mod grid_width, start.y)`
whenever `start.x ≥ 1`, as at the configured start cell (7, 10)), direction
Right, last committed direction Right, and pending direction and outcome
unset. -/
theorem snake_new_spec (p : GridPosition) :
    (Snake.new p).head.pos = p ∧
    (Snake.new p).body = [Segment.new (GridPosition.new (p.x - 1) p.y)] ∧
    (Snake.new p).positions.length = 2 ∧
    (Snake.new p).dir = Direction.Right ∧
    (Snake.new p).last_update_dir = Direction.Right ∧
    (Snake.new p).next_dir = none ∧
    (Snake.new p).ate = none ∧
    (Snake.new snake_start).body =
      [Segment.new (GridPosition.new ((snake_start.x - 1) % GRID_SIZE.1) snake_start.y)] :=
  ⟨rfl, rfl, rfl, rfl, rfl, rfl, rfl, by decide⟩

/-- A tick never reads the stored outcome of the previous tick. -/
theorem Snake.update_ate_irrelevant (s : Snake) (a : Option Ate) (f : Food) :
    ({ s with ate := a } : Snake).update f = s.update f := by
  have hp : ({ s with ate := a } : Snake).promote.dir = s.promote.dir ∧
      ({ s with ate := a } : Snake).promote.next_dir = s.promote.next_dir := by
    obtain ⟨sh, sd, sb, sa, sl, sn⟩ := s
    cases sn <;> by_cases hld : sl = sd <;> simp [Snake.promote, hld]
  by_cases hself : GridPosition.new_from_move s.head.pos s.promote.dir ∈
      (s.head :: s.body).map Segment.pos
  · rw [Snake.update_self s f hself,
      Snake.update_self ({ s with ate := a } : Snake) f (by rw [hp.1]; exact hself)]
    rw [hp.1, hp.2]
  · by_cases hfood : GridPosition.new_from_move s.head.pos s.promote.dir = f.pos
    · rw [Snake.update_food s f hself hfood,
        Snake.update_food ({ s with ate := a } : Snake) f
          (by rw [hp.1]; exact hself) (by rw [hp.1]; exact hfood)]
      rw [hp.1, hp.2]
    · rw [Snake.update_none s f hself hfood,
        Snake.update_none ({ s with ate := a } : Snake) f
          (by rw [hp.1]; exact hself) (by rw [hp.1]; exact hfood)]
      rw [hp.1, hp.2]

/-- C9: `Snake::update` is deterministic and reads exactly the head, body,
direction, last committed direction and buffered direction of the snake
plus the food position: two snakes agreeing on those five fields (their
stored previous outcomes may differ) produce identical resulting states,
outcomes included. -/
theorem snake_update_deterministic (s t : Snake) (f : Food)
    (h1 : s.head = t.head) (h2 : s.body = t.body) (h3 : s.dir = t.dir)
    (h4 : s.last_update_dir = t.last_update_dir) (h5 : s.next_dir = t.next_dir) :
    s.update f = t.update f := by
  have ht : t = { s with ate := t.ate } := by
    obtain ⟨sh, sd, sb, sa, sl, sn⟩ := s
    obtain ⟨th, td, tb, ta, tl, tn⟩ := t
    dsimp only at h1 h2 h3 h4 h5 ⊢
    rw [h1, h2, h3, h4, h5]
  rw [ht]
  exact (Snake.update_ate_irrelevant s t.ate f).symm

/-- Witness for C9: two start snakes differing only in the stored previous
outcome tick to the same state. -/
theorem snake_update_deterministic_witness :
    (Snake.new snake_start).update (Food.new (GridPosition.new 0 0)) =
      ({ Snake.new snake_start with ate := some Ate.Food } : Snake).update
        (Food.new (GridPosition.new 0 0)) :=
  snake_update_deterministic (Snake.new snake_start)
    ({ Snake.new snake_start with ate := some Ate.Food } : Snake)
    (Food.new (GridPosition.new 0 0)) rfl rfl rfl rfl rfl

/-- C10: `key_down_event` modifies at most the snake's direction and
buffered direction: the head, body, stored outcome, last committed
direction, the food, the game-over flag and the random generator are all
unchanged, for every key input. -/
theorem key_down_event_frame {ρ : Type} (g : GameState ρ) (input : Option KeyCode) :
    (g.key_down_event input).snake.head = g.snake.head ∧
    (g.key_down_event input).snake.body = g.snake.body ∧
    (g.key_down_event input).snake.ate = g.snake.ate ∧
    (g.key_down_event input).snake.last_update_dir = g.snake.last_update_dir ∧
    (g.key_down_event input).food = g.food ∧
    (g.key_down_event input).gameover = g.gameover ∧
    (g.key_down_event input).rng = g.rng := by
  cases input with
  | none => exact ⟨rfl, rfl, rfl, rfl, rfl, rfl, rfl⟩
  | some k =>
    cases k <;>
      first
        | exact ⟨rfl, rfl, rfl, rfl, rfl, rfl, rfl⟩
        | exact ⟨(Snake.handle_frame g.snake _).1, (Snake.handle_frame g.snake _).2.1,
            (Snake.handle_frame g.snake _).2.2.1, (Snake.handle_frame g.snake _).2.2.2,
            rfl, rfl, rfl⟩
